import Mathlib

/-!
Verification development for the Track-Your-Meds mobile client.

The only algorithmic component of the repository is the HTTP client layer
(src/services/api.ts): URL composition, JSON body serialization, a timeout
race, a fixed-count retry wrapper, HTTP-status error construction and
transport-error normalization, plus the typed per-resource methods.  The one
piece of caller-side logic treated here is the optimistic toggle with
rollback in the home screen (handleToggleActive).

The embedding below translates that TypeScript directly:
  * JS runtime values passed to JSON.stringify are modelled by Json;
  * a single fetch attempt is modelled by FetchAttempt: how many
    milliseconds until the fetch promise settles, and whether it settles
    with a response or rejects with an error;
  * a whole request execution is parametrised by env : Nat → FetchAttempt,
    the outcome of the i-th invocation of the timed fetch (the retry
    wrapper re-invokes fetch, so each attempt index gets its own entry);
  * JS errors are modelled by JsError: an `instanceof TypeError` flag plus
    the message string (every error thrown in this layer is an Error).
-/

/-- JS runtime value (the `any` bodies handed to JSON.stringify). -/
inductive Json where
  | null
  | bool (b : Bool)
  | num (n : Int)
  | str (s : String)
  | arr (elems : List Json)
  | obj (fields : List (String × Json))

/-- Escape a string body the way JSON.stringify does (quote and backslash;
control characters do not occur in the modelled payloads). -/
def jsonEscape : List Char → String
  | [] => ""
  | c :: cs =>
    (if c = '"' ∨ c = '\\' then "\\" ++ String.singleton c else String.singleton c)
      ++ jsonEscape cs

def jsonQuote (s : String) : String := "\"" ++ jsonEscape s.data ++ "\""

mutual
/-- JSON.stringify with default arguments: no whitespace, object keys in
insertion order. -/
def Json.stringify : Json → String
  | Json.null => "null"
  | Json.bool b => cond b "true" "false"
  | Json.num n => toString n
  | Json.str s => jsonQuote s
  | Json.arr xs => "[" ++ stringifyElems xs ++ "]"
  | Json.obj fs => "\x7b" ++ stringifyFields fs ++ "\x7d"

def stringifyElems : List Json → String
  | [] => ""
  | [x] => Json.stringify x
  | x :: y :: xs => Json.stringify x ++ "," ++ stringifyElems (y :: xs)

def stringifyFields : List (String × Json) → String
  | [] => ""
  | [(k, v)] => jsonQuote k ++ ":" ++ Json.stringify v
  | (k, v) :: f :: fs => jsonQuote k ++ ":" ++ Json.stringify v ++ "," ++ stringifyFields (f :: fs)
end

/-- Boolean prefix test on character lists (backing jsIncludes). -/
def charsPrefixOf : List Char → List Char → Bool
  | [], _ => true
  | _ :: _, [] => false
  | c :: cs, d :: ds => c == d && charsPrefixOf cs ds

/-- Does pat occur as a contiguous run inside s? -/
def charsContains : List Char → List Char → Bool
  | [], pat => charsPrefixOf pat []
  | c :: rest, pat => charsPrefixOf pat (c :: rest) || charsContains rest pat

/-- JS String.prototype.includes(pat): substring test. -/
def jsIncludes (s pat : String) : Bool := charsContains s.data pat.data

/-- A JS Error value: whether it is an `instanceof TypeError`, and its
message.  (fetch rejects with a TypeError; every error this layer itself
throws is a plain Error, isTypeError = false.) -/
structure JsError where
  isTypeError : Bool
  message : String
deriving DecidableEq

/-- Platform.select target (src/services/api.ts lines 7-11). -/
inductive PlatformOS where
  | ios
  | android
  | other
deriving DecidableEq

/-- API_CONFIG.BASE_URL: platform-dependent in dev builds, fixed in
production (src/services/api.ts lines 5-12). -/
def API_CONFIG_BASE_URL (isDev : Bool) (os : PlatformOS) : String :=
  if isDev then
    match os with
    | PlatformOS.ios => "http://localhost:5050/api"
    | PlatformOS.android => "http://10.0.2.2:5050/api"
    | PlatformOS.other => "http://192.168.11.58:5050/api"
  else
    "https://your-production-domain.com/api"

/-- API_CONFIG.TIMEOUT (ms). -/
def API_CONFIG_TIMEOUT : Nat := 5000

/-- API_CONFIG.RETRY_ATTEMPTS: the default `attempts` argument of withRetry. -/
def API_CONFIG_RETRY_ATTEMPTS : Nat := 2

/-- API_CONFIG.RETRY_DELAY (ms): the pause between attempts.  The pause has
no observable effect in this model (no wall clock), recorded for fidelity. -/
def API_CONFIG_RETRY_DELAY : Nat := 500

/-- The fetch Response object as far as api.ts reads it: status,
statusText, the content-type header, the body read as text, and the body
parsed as JSON (only consulted when the content type declares JSON). -/
structure HttpResponse where
  status : Nat
  statusText : String
  contentType : Option String
  bodyText : String
  jsonBody : Json

/-- Response.ok per the fetch specification: status in 200..299. -/
def HttpResponse.ok (r : HttpResponse) : Bool :=
  decide (200 ≤ r.status) && decide (r.status ≤ 299)

/-- One invocation of fetch: how many ms until the promise settles, and
whether it settles with a Response or rejects with an error. -/
structure FetchAttempt where
  delay : Nat
  outcome : Except JsError HttpResponse

/-- withTimeout (api.ts lines 109-116): race the fetch against a timer of
timeoutMs; the fetch wins only if it settles strictly before the timer,
otherwise the result is the rejection Error "Request timeout". -/
def withTimeout (a : FetchAttempt) (timeoutMs : Nat) : Except JsError HttpResponse :=
  if a.delay < timeoutMs then a.outcome
  else Except.error (JsError.mk false "Request timeout")

/-- withRetry (api.ts lines 119-133): run the operation; on failure, if
attempts > 1, wait RETRY_DELAY and re-run with attempts - 1, else rethrow.
op i is the outcome of the i-th invocation of the operation.  The
attempts > 1 test is split into the cases attempts ≤ 1 (patterns 0 and 1:
rethrow) and attempts = n + 2 (rerun with attempts - 1 = n + 1). -/
def withRetry (op : Nat → Except JsError HttpResponse) :
    Nat → Nat → Except JsError HttpResponse
  | 0, idx =>
    match op idx with
    | Except.ok v => Except.ok v
    | Except.error e => Except.error e
  | 1, idx =>
    match op idx with
    | Except.ok v => Except.ok v
    | Except.error e => Except.error e
  | n + 2, idx =>
    match op idx with
    | Except.ok v => Except.ok v
    | Except.error _ => withRetry op (n + 1) (idx + 1)

/-- How many times withRetry executes the operation: one execution per
call, plus the recursive executions taken when attempts > 1 and the
current execution failed. -/
def withRetryCount (op : Nat → Except JsError HttpResponse) :
    Nat → Nat → Nat
  | 0, _ => 1
  | 1, _ => 1
  | n + 2, idx =>
    match op idx with
    | Except.ok _ => 1
    | Except.error _ => 1 + withRetryCount op (n + 1) (idx + 1)

/-- The operation request hands to withRetry: the i-th fetch invocation
raced against a fresh timeout window (api.ts lines 163-165). -/
def timedCall (env : Nat → FetchAttempt) (timeoutMs : Nat) (i : Nat) :
    Except JsError HttpResponse :=
  withTimeout (env i) timeoutMs

/-- HTTP methods accepted by RequestOptions. -/
inductive HttpMethod where
  | GET
  | POST
  | PUT
  | DELETE
  | PATCH
deriving DecidableEq

/-- RequestOptions (api.ts lines 89-94); none models an absent property,
so request's destructuring defaults apply exactly to the none fields. -/
structure RequestOptions where
  method : Option HttpMethod
  headers : Option (List (String × String))
  body : Option Json
  timeout : Option Nat

/-- The service object: baseURL and defaultHeaders set by the constructor
(api.ts lines 100-106). -/
structure ApiService where
  baseURL : String
  defaultHeaders : List (String × String)

/-- The exported singleton: baseURL from API_CONFIG, JSON default headers. -/
def apiService (isDev : Bool) (os : PlatformOS) : ApiService :=
  ApiService.mk (API_CONFIG_BASE_URL isDev os)
    [("Content-Type", "application/json"), ("Accept", "application/json")]

/-- JS object spread for string-keyed records: keys of base (values
overridden by extra where present, in base's order) followed by the keys
only extra has.  Models the headers merge at api.ts lines 147-150. -/
def mergeHeaders (base extra : List (String × String)) : List (String × String) :=
  base.map (fun kv =>
    match extra.find? (fun kv2 => kv2.1 == kv.1) with
    | some kv2 => (kv.1, kv2.2)
    | none => kv)
  ++ extra.filter (fun kv2 => base.all (fun kv => kv.1 != kv2.1))

/-- The RequestInit data request passes to fetch: url, method, merged
headers, and the serialized body (api.ts lines 144-155). -/
structure SentRequest where
  url : String
  method : HttpMethod
  headers : List (String × String)
  body : Option String

/-- Body attachment (api.ts lines 153-155): serialized only when a body
value is present and the method is not GET. -/
def sentBodyOf (body : Option Json) (method : HttpMethod) : Option String :=
  match body, method with
  | some _, HttpMethod.GET => none
  | some j, _ => some (Json.stringify j)
  | none, _ => none

/-- The error built for a non-success status (api.ts line 172):
Error "HTTP status: bodyText", with statusText when the body is empty. -/
def httpErrorMessage (r : HttpResponse) : String :=
  "HTTP " ++ toString r.status ++ ": "
    ++ (if r.bodyText = "" then r.statusText else r.bodyText)

/-- The content-type test at api.ts line 177: a missing (or empty, hence
falsy) header or one not containing "application/json" means no JSON body. -/
def contentTypeIsJson : Option String → Bool
  | none => false
  | some ct => jsIncludes ct "application/json"

/-- The catch block of request (api.ts lines 184-196): a TypeError whose
message contains "Network request failed" is replaced by the
connectivity error; otherwise any Error whose message contains "timeout"
is replaced by the timed-out error; anything else is rethrown unchanged. -/
def normalizeError (e : JsError) : JsError :=
  if e.isTypeError && jsIncludes e.message "Network request failed" then
    JsError.mk false "Unable to connect to server. Please check your connection."
  else if jsIncludes e.message "timeout" then
    JsError.mk false "Request timed out. Please try again."
  else
    e

/-- The success path of request on a settled response (api.ts lines
169-183): non-ok status throws the HTTP error (caught and normalized by
the catch block); a non-JSON content type resolves to the empty object;
otherwise the parsed JSON body is returned. -/
def responseToResult (r : HttpResponse) : Except JsError Json :=
  if r.ok then
    if contentTypeIsJson r.contentType then Except.ok r.jsonBody
    else Except.ok (Json.obj [])
  else
    Except.error (normalizeError (JsError.mk false (httpErrorMessage r)))

/-- request (api.ts lines 136-197): destructure options with defaults,
build the RequestInit, run the timed fetch under withRetry, then apply
the response handling and the catch-block normalization.  Returns the
sent request alongside the settled outcome. -/
def ApiService.request (svc : ApiService) (endpoint : String)
    (options : RequestOptions) (env : Nat → FetchAttempt) :
    SentRequest × Except JsError Json :=
  (SentRequest.mk (svc.baseURL ++ endpoint)
      (options.method.getD HttpMethod.GET)
      (mergeHeaders svc.defaultHeaders (options.headers.getD []))
      (sentBodyOf options.body (options.method.getD HttpMethod.GET)),
   match withRetry (timedCall env (options.timeout.getD API_CONFIG_TIMEOUT))
       API_CONFIG_RETRY_ATTEMPTS 0 with
   | Except.error e => Except.error (normalizeError e)
   | Except.ok r => responseToResult r)

/-- get (api.ts lines 200-202). -/
def ApiService.get (svc : ApiService) (endpoint : String) (env : Nat → FetchAttempt) :
    SentRequest × Except JsError Json :=
  svc.request endpoint (RequestOptions.mk (some HttpMethod.GET) none none none) env

/-- post (api.ts lines 204-209). -/
def ApiService.post (svc : ApiService) (endpoint : String) (data : Option Json)
    (env : Nat → FetchAttempt) : SentRequest × Except JsError Json :=
  svc.request endpoint (RequestOptions.mk (some HttpMethod.POST) none data none) env

/-- put (api.ts lines 211-216). -/
def ApiService.put (svc : ApiService) (endpoint : String) (data : Option Json)
    (env : Nat → FetchAttempt) : SentRequest × Except JsError Json :=
  svc.request endpoint (RequestOptions.mk (some HttpMethod.PUT) none data none) env

/-- patch (api.ts lines 218-223). -/
def ApiService.patch (svc : ApiService) (endpoint : String) (data : Option Json)
    (env : Nat → FetchAttempt) : SentRequest × Except JsError Json :=
  svc.request endpoint (RequestOptions.mk (some HttpMethod.PATCH) none data none) env

/-- delete (api.ts lines 225-227). -/
def ApiService.delete (svc : ApiService) (endpoint : String) (env : Nat → FetchAttempt) :
    SentRequest × Except JsError Json :=
  svc.request endpoint (RequestOptions.mk (some HttpMethod.DELETE) none none none) env

/-- getSymptoms (api.ts lines 232-234). -/
def ApiService.getSymptoms (svc : ApiService) (env : Nat → FetchAttempt) :
    SentRequest × Except JsError Json :=
  svc.get "/symptoms" env

/-- getSymptom (api.ts lines 236-238). -/
def ApiService.getSymptom (svc : ApiService) (id : Int) (env : Nat → FetchAttempt) :
    SentRequest × Except JsError Json :=
  svc.get ("/symptoms/" ++ toString id) env

/-- createSymptom (api.ts lines 240-242); the argument is the runtime
value of the PartialSymptom the caller built. -/
def ApiService.createSymptom (svc : ApiService) (symptom : Json) (env : Nat → FetchAttempt) :
    SentRequest × Except JsError Json :=
  svc.post "/symptoms" (some symptom) env

/-- updateSymptom (api.ts lines 244-246). -/
def ApiService.updateSymptom (svc : ApiService) (id : Int) (symptom : Json)
    (env : Nat → FetchAttempt) : SentRequest × Except JsError Json :=
  svc.put ("/symptoms/" ++ toString id) (some symptom) env

/-- deleteSymptom (api.ts lines 248-250). -/
def ApiService.deleteSymptom (svc : ApiService) (id : Int) (env : Nat → FetchAttempt) :
    SentRequest × Except JsError Json :=
  svc.delete ("/symptoms/" ++ toString id) env

/-- getMedicationsByStage (api.ts lines 253-255). -/
def ApiService.getMedicationsByStage (svc : ApiService) (stageId : Int)
    (env : Nat → FetchAttempt) : SentRequest × Except JsError Json :=
  svc.get ("/Medication/stage/" ++ toString stageId) env

/-- getMedication (api.ts lines 257-259). -/
def ApiService.getMedication (svc : ApiService) (id : Int) (env : Nat → FetchAttempt) :
    SentRequest × Except JsError Json :=
  svc.get ("/Medication/" ++ toString id) env

/-- createMedication (api.ts lines 261-263). -/
def ApiService.createMedication (svc : ApiService) (medication : Json)
    (env : Nat → FetchAttempt) : SentRequest × Except JsError Json :=
  svc.post "/Medication" (some medication) env

/-- updateMedication (api.ts lines 265-267). -/
def ApiService.updateMedication (svc : ApiService) (id : Int) (medication : Json)
    (env : Nat → FetchAttempt) : SentRequest × Except JsError Json :=
  svc.put ("/Medication/" ++ toString id) (some medication) env

/-- deleteMedication (api.ts lines 269-271). -/
def ApiService.deleteMedication (svc : ApiService) (id : Int) (env : Nat → FetchAttempt) :
    SentRequest × Except JsError Json :=
  svc.delete ("/Medication/" ++ toString id) env

/-- createStage (api.ts lines 274-276). -/
def ApiService.createStage (svc : ApiService) (stage : Json) (env : Nat → FetchAttempt) :
    SentRequest × Except JsError Json :=
  svc.post "/stages" (some stage) env

/-- updateStage (api.ts lines 278-280). -/
def ApiService.updateStage (svc : ApiService) (id : Int) (stage : Json)
    (env : Nat → FetchAttempt) : SentRequest × Except JsError Json :=
  svc.put ("/stages/" ++ toString id) (some stage) env

/-- deleteStage (api.ts lines 282-284). -/
def ApiService.deleteStage (svc : ApiService) (id : Int) (env : Nat → FetchAttempt) :
    SentRequest × Except JsError Json :=
  svc.delete ("/stages/" ++ toString id) env

/-- createIntake (api.ts lines 287-289). -/
def ApiService.createIntake (svc : ApiService) (intake : Json) (env : Nat → FetchAttempt) :
    SentRequest × Except JsError Json :=
  svc.post "/intakes" (some intake) env

/-- updateIntake (api.ts lines 291-293). -/
def ApiService.updateIntake (svc : ApiService) (id : Int) (intake : Json)
    (env : Nat → FetchAttempt) : SentRequest × Except JsError Json :=
  svc.put ("/intakes/" ++ toString id) (some intake) env

/-- deleteIntake (api.ts lines 295-297). -/
def ApiService.deleteIntake (svc : ApiService) (id : Int) (env : Nat → FetchAttempt) :
    SentRequest × Except JsError Json :=
  svc.delete ("/intakes/" ++ toString id) env

/-- healthCheck (api.ts lines 299-307): a read of /symptoms with every
error swallowed into false. -/
def ApiService.healthCheck (svc : ApiService) (env : Nat → FetchAttempt) : Bool :=
  match (ApiService.get svc "/symptoms" env).2 with
  | Except.ok _ => true
  | Except.error _ => false

/-- Intake record (api.ts lines 20-26). -/
structure Intake where
  id : Int
  medicationId : Int
  scheduledTime : String
  actualTime : String
  medication : String
deriving DecidableEq

/-- Medication record (api.ts lines 28-38). -/
structure Medication where
  id : Int
  name : String
  intervalHours : Int
  totalDays : Int
  quantityMg : Int
  treatmentId : Option Int
  stageId : Int
  stage : Option String
  intakes : Option (List Intake)
deriving DecidableEq

/-- Stage record (api.ts lines 40-46). -/
structure Stage where
  id : Int
  name : String
  symptomId : Int
  symptom : String
  medication : List Medication
deriving DecidableEq

/-- Symptom record (api.ts lines 48-53). -/
structure Symptom where
  id : Int
  name : String
  isActive : Bool
  stages : List Stage
deriving DecidableEq

/-- The spread update of the home screen: all fields kept, isActive
replaced (the object literal at part_000 lines 59 and 79). -/
def Symptom.setActive (s : Symptom) (b : Bool) : Symptom :=
  Symptom.mk s.id s.name b s.stages

/-- handleToggleActive (src/unnamed/part_000 lines 50-86), as the map
from the symptom list held in component state to the list it holds after
the handler and its await settle.  If no symptom carries the id the
handler returns early.  Otherwise the optimistic update sets isActive to
the requested value; when the updateSymptom call fails, the catch block
rebuilds the list from the captured pre-update list, setting the toggled
symptom's isActive to the NEGATION of the requested value. -/
def handleToggleActive (symptoms : List Symptom) (symptomId : Int)
    (value : Bool) (apiFails : Bool) : List Symptom :=
  match symptoms.find? (fun s => s.id == symptomId) with
  | none => symptoms
  | some _ =>
    if apiFails then
      symptoms.map (fun s => if s.id == symptomId then s.setActive (!value) else s)
    else
      symptoms.map (fun s => if s.id == symptomId then s.setActive value else s)

/-! Concrete fetch environments used to instantiate the theorems. -/

/-- Every fetch invocation rejects at once with a plain transport error. -/
def envAlwaysBoom : Nat → FetchAttempt :=
  fun _ => FetchAttempt.mk 0 (Except.error (JsError.mk false "boom"))

/-- A healthy JSON 200 response. -/
def okJson : HttpResponse :=
  HttpResponse.mk 200 "OK" (some "application/json") "" (Json.obj [("ok", Json.bool true)])

/-- First invocation resolves with a 500 response; any later invocation
would resolve with a healthy 200. -/
def respC2 : HttpResponse :=
  HttpResponse.mk 500 "Internal Server Error" (some "text/plain") "Server error" Json.null

def envC2 : Nat → FetchAttempt
  | 0 => FetchAttempt.mk 0 (Except.ok respC2)
  | _ + 1 => FetchAttempt.mk 0 (Except.ok okJson)

/-- Unfolding the default budget: withRetry with RETRY_ATTEMPTS = 2
consults op idx and, on its failure, op (idx + 1), and nothing further. -/
theorem withRetry_default_eq (op : Nat → Except JsError HttpResponse) (idx : Nat) :
    withRetry op API_CONFIG_RETRY_ATTEMPTS idx =
      (match op idx with
       | Except.ok v => Except.ok v
       | Except.error _ =>
         match op (idx + 1) with
         | Except.ok v => Except.ok v
         | Except.error e => Except.error e) := rfl

/-- Unfolding the default budget for the execution counter: one execution
when op idx succeeds, two when it fails. -/
theorem withRetryCount_default_eq (op : Nat → Except JsError HttpResponse) (idx : Nat) :
    withRetryCount op API_CONFIG_RETRY_ATTEMPTS idx =
      (match op idx with
       | Except.ok _ => 1
       | Except.error _ => 2) := rfl

/-- An operation that fails on every invocation makes withRetry fail with
that error, for every budget. -/
theorem withRetry_all_error (op : Nat → Except JsError HttpResponse) (e : JsError)
    (h : ∀ i, op i = Except.error e) :
    ∀ attempts idx, withRetry op attempts idx = Except.error e := by
  intro attempts
  induction attempts with
  | zero => intro idx; simp only [withRetry, h idx]
  | succ n ih =>
    intro idx
    cases n with
    | zero => simp only [withRetry, h idx]
    | succ m =>
      show withRetry op (m + 2) idx = Except.error e
      simp only [withRetry, h idx]
      exact ih (idx + 1)

/-- C1 (corrected).  With the default configuration the retry budget is
RETRY_ATTEMPTS = 2 TOTAL executions of the timed call (the wrapper
retries only while attempts > 1), and after both fail the error of the
second — terminal — attempt is surfaced, passing through the catch-block
normalization on its way out of request. -/
theorem C1_theorem (svc : ApiService) (endpoint : String) (options : RequestOptions)
    (env : Nat → FetchAttempt) (e0 e1 : JsError)
    (h0 : timedCall env (options.timeout.getD API_CONFIG_TIMEOUT) 0 = Except.error e0)
    (h1 : timedCall env (options.timeout.getD API_CONFIG_TIMEOUT) 1 = Except.error e1) :
    withRetry (timedCall env (options.timeout.getD API_CONFIG_TIMEOUT))
        API_CONFIG_RETRY_ATTEMPTS 0 = Except.error e1 ∧
    (svc.request endpoint options env).2 = Except.error (normalizeError e1) ∧
    withRetryCount (timedCall env (options.timeout.getD API_CONFIG_TIMEOUT))
        API_CONFIG_RETRY_ATTEMPTS 0 = 2 := by
  have hr : withRetry (timedCall env (options.timeout.getD API_CONFIG_TIMEOUT))
      API_CONFIG_RETRY_ATTEMPTS 0 = Except.error e1 := by
    simp only [withRetry_default_eq, h0, Nat.zero_add, h1]
  refine ⟨hr, ?_, ?_⟩
  · simp only [ApiService.request, hr]
  · simp only [withRetryCount_default_eq, h0]

/-- C1 (counterexample to the claim as stated): an environment on which
every attempt fails consumes the whole default budget after executing
the timed call exactly 2 times, not 3. -/
theorem C1_counterexample :
    withRetryCount (timedCall envAlwaysBoom API_CONFIG_TIMEOUT)
        API_CONFIG_RETRY_ATTEMPTS 0 = 2 ∧ (2 : Nat) ≠ 3 := by
  exact ⟨rfl, by decide⟩

/-- C1 witness: the amended theorem applied to the always-failing
environment; the terminal "boom" error (untouched by normalization)
comes back out of request after 2 executions. -/
theorem C1_witness :
    ((apiService true PlatformOS.ios).request "/symptoms"
        (RequestOptions.mk none none none none) envAlwaysBoom).2
      = Except.error (JsError.mk false "boom") ∧
    withRetryCount (timedCall envAlwaysBoom API_CONFIG_TIMEOUT)
        API_CONFIG_RETRY_ATTEMPTS 0 = 2 := by
  have h := C1_theorem (apiService true PlatformOS.ios) "/symptoms"
    (RequestOptions.mk none none none none) envAlwaysBoom
    (JsError.mk false "boom") (JsError.mk false "boom") rfl rfl
  refine ⟨?_, h.2.2⟩
  rw [h.2.1]
  rfl

/-- C2 (corrected).  The retry wrapper sees only the timed fetch: when
the first fetch invocation settles with ANY response — success or error
status — the wrapper returns after a single execution; only a rejection
of the timed call (timeout or transport error) triggers a re-invocation,
which the default budget of 2 then exhausts. -/
theorem C2_theorem (env : Nat → FetchAttempt) (t : Nat) :
    (∀ d r, env 0 = FetchAttempt.mk d (Except.ok r) → d < t →
      withRetryCount (timedCall env t) API_CONFIG_RETRY_ATTEMPTS 0 = 1) ∧
    (∀ e, timedCall env t 0 = Except.error e →
      withRetryCount (timedCall env t) API_CONFIG_RETRY_ATTEMPTS 0 = 2) := by
  constructor
  · intro d r h0 hd
    have hok : timedCall env t 0 = Except.ok r := by
      simp [timedCall, withTimeout, h0, hd]
    simp only [withRetryCount_default_eq, hok]
  · intro e h0
    simp only [withRetryCount_default_eq, h0]

/-- C2 (counterexample to the claim as stated): the first attempt of this
POST settles with a 500 response; the timed call is executed exactly once
(one full retry remains in the budget and the second attempt would have
returned a healthy 200), and the HTTP error is thrown without any retry. -/
theorem C2_counterexample :
    withRetryCount (timedCall envC2 API_CONFIG_TIMEOUT)
        API_CONFIG_RETRY_ATTEMPTS 0 = 1 ∧
    ((apiService true PlatformOS.ios).post "/symptoms" (some (Json.obj [])) envC2).2
      = Except.error (JsError.mk false "HTTP 500: Server error") := by
  exact ⟨rfl, rfl⟩

/-- C2 witness: one invocation when the fetch resolves (with an error
status), two when the timed call rejects. -/
theorem C2_witness :
    withRetryCount (timedCall envC2 API_CONFIG_TIMEOUT)
        API_CONFIG_RETRY_ATTEMPTS 0 = 1 ∧
    withRetryCount (timedCall envAlwaysBoom API_CONFIG_TIMEOUT)
        API_CONFIG_RETRY_ATTEMPTS 0 = 2 :=
  ⟨(C2_theorem envC2 API_CONFIG_TIMEOUT).1 0 respC2 rfl (by decide),
   (C2_theorem envAlwaysBoom API_CONFIG_TIMEOUT).2 (JsError.mk false "boom") rfl⟩

/-- A 504 response whose body text happens to contain "timeout". -/
def respGw : HttpResponse :=
  HttpResponse.mk 504 "Gateway Timeout" (some "text/plain") "Gateway timeout" Json.null

def envC3 : Nat → FetchAttempt := fun _ => FetchAttempt.mk 0 (Except.ok respGw)

/-- A server that answers (healthily) only after 99999 ms, beyond every
default timeout window. -/
def envSlow : Nat → FetchAttempt := fun _ => FetchAttempt.mk 99999 (Except.ok okJson)

/-- C3 (corrected).  The catch block rewrites errors by instance and
substring tests, not by failure shape: a TypeError whose message contains
"Network request failed" becomes the connectivity message; otherwise any
error whose message contains "timeout" — the raw timer error, but equally
an HTTP-failure error whose text happens to contain "timeout" — becomes
the timed-out message; an error matching neither test is propagated
unchanged.  In particular a server slower than the window on every
attempt yields the timed-out message, never the raw timer error. -/
theorem C3_theorem (svc : ApiService) (endpoint : String) (options : RequestOptions)
    (env : Nat → FetchAttempt) (e : JsError)
    (hfail : withRetry (timedCall env (options.timeout.getD API_CONFIG_TIMEOUT))
        API_CONFIG_RETRY_ATTEMPTS 0 = Except.error e) :
    (svc.request endpoint options env).2 = Except.error (normalizeError e) ∧
    (e.isTypeError = true → jsIncludes e.message "Network request failed" = true →
      normalizeError e
        = JsError.mk false "Unable to connect to server. Please check your connection.") ∧
    ((e.isTypeError && jsIncludes e.message "Network request failed") = false →
      jsIncludes e.message "timeout" = true →
      normalizeError e = JsError.mk false "Request timed out. Please try again.") ∧
    ((e.isTypeError && jsIncludes e.message "Network request failed") = false →
      jsIncludes e.message "timeout" = false →
      normalizeError e = e) ∧
    ((∀ i, options.timeout.getD API_CONFIG_TIMEOUT ≤ (env i).delay) →
      (svc.request endpoint options env).2
        = Except.error (JsError.mk false "Request timed out. Please try again.")) := by
  refine ⟨?_, ?_, ?_, ?_, ?_⟩
  · simp only [ApiService.request, hfail]
  · intro hty hnet
    simp [normalizeError, hty, hnet]
  · intro hno ht
    simp [normalizeError, hno, ht]
  · intro hno ht
    simp [normalizeError, hno, ht]
  · intro hslow
    have htimer : ∀ i, timedCall env (options.timeout.getD API_CONFIG_TIMEOUT) i
        = Except.error (JsError.mk false "Request timeout") := by
      intro i
      simp [timedCall, withTimeout, Nat.not_lt.mpr (hslow i)]
    have hr := withRetry_all_error _ _ htimer API_CONFIG_RETRY_ATTEMPTS 0
    simp only [ApiService.request, hr]
    rfl

/-- C3 (counterexample to the claim as stated): the HTTP-failure error
"HTTP 504: Gateway timeout" is neither of the two transport failure
shapes, yet it is NOT propagated unchanged — the substring test rewrites
it into the generic timed-out message. -/
theorem C3_counterexample :
    ((apiService true PlatformOS.ios).getSymptoms envC3).2
      = Except.error (JsError.mk false "Request timed out. Please try again.") ∧
    normalizeError (JsError.mk false "HTTP 504: Gateway timeout")
      ≠ JsError.mk false "HTTP 504: Gateway timeout" := by
  exact ⟨rfl, by decide⟩

/-- C3 witness: the amended theorem applied to the uniformly slow server;
the surfaced error is the user-facing timed-out message. -/
theorem C3_witness :
    ((apiService true PlatformOS.ios).getSymptoms envSlow).2
      = Except.error (JsError.mk false "Request timed out. Please try again.") := by
  have h := C3_theorem (apiService true PlatformOS.ios) "/symptoms"
    (RequestOptions.mk (some HttpMethod.GET) none none none) envSlow
    (JsError.mk false "Request timeout") rfl
  exact h.2.2.2.2 (fun i => by show (5000 : Nat) ≤ 99999; decide)

/-- C10 (confirmed).  Timeout classification in the catch block is a
substring match on the message: every received response with a non-success
status whose constructed error text contains "timeout" — such as
"HTTP 504: Gateway timeout" — is replaced by the generic timed-out error,
discarding the status code and body text. -/
theorem C10_theorem (svc : ApiService) (endpoint : String) (options : RequestOptions)
    (env : Nat → FetchAttempt) (d : Nat) (r : HttpResponse)
    (h0 : env 0 = FetchAttempt.mk d (Except.ok r))
    (hd : d < options.timeout.getD API_CONFIG_TIMEOUT)
    (hok : r.ok = false)
    (ht : jsIncludes (httpErrorMessage r) "timeout" = true) :
    (svc.request endpoint options env).2
      = Except.error (JsError.mk false "Request timed out. Please try again.") := by
  have hresp : withRetry (timedCall env (options.timeout.getD API_CONFIG_TIMEOUT))
      API_CONFIG_RETRY_ATTEMPTS 0 = Except.ok r := by
    have h1 : timedCall env (options.timeout.getD API_CONFIG_TIMEOUT) 0 = Except.ok r := by
      simp [timedCall, withTimeout, h0, hd]
    simp only [withRetry_default_eq, h1]
  simp only [ApiService.request, hresp]
  simp [responseToResult, hok, normalizeError, ht]

/-- C10 witness: a GET answered 504 with body "Gateway timeout" resolves
to the generic timed-out error; the 504 status and the server body are
gone from the surfaced message. -/
theorem C10_witness :
    ((apiService true PlatformOS.android).getMedication 7 envC3).2
      = Except.error (JsError.mk false "Request timed out. Please try again.") ∧
    jsIncludes "Request timed out. Please try again." "504" = false ∧
    jsIncludes "Request timed out. Please try again." "Gateway timeout" = false := by
  refine ⟨?_, by rfl, by rfl⟩
  exact C10_theorem (apiService true PlatformOS.android)
    ("/Medication/" ++ toString (7 : Int))
    (RequestOptions.mk (some HttpMethod.GET) none none none) envC3 0 respGw
    rfl (by decide) rfl rfl

/-- A 204-style empty response: no content-type header, empty body. -/
def resp204 : HttpResponse := HttpResponse.mk 204 "No Content" none "" Json.null

def env204 : Nat → FetchAttempt := fun _ => FetchAttempt.mk 0 (Except.ok resp204)

/-- C4 (confirmed).  A successful response whose declared content type is
absent or not JSON resolves to the empty object — a value distinct from
null — for every call; deleteMedication(42) issues DELETE /Medication/42
with no body and resolves to the empty object on such a response. -/
theorem C4_theorem (svc : ApiService) (endpoint : String) (options : RequestOptions)
    (env : Nat → FetchAttempt) (d : Nat) (r : HttpResponse)
    (h0 : env 0 = FetchAttempt.mk d (Except.ok r))
    (hd : d < options.timeout.getD API_CONFIG_TIMEOUT)
    (hdq : d < API_CONFIG_TIMEOUT)
    (hok : r.ok = true)
    (hct : contentTypeIsJson r.contentType = false) :
    (svc.request endpoint options env).2 = Except.ok (Json.obj []) ∧
    (svc.deleteMedication 42 env).1.url = svc.baseURL ++ "/Medication/42" ∧
    (svc.deleteMedication 42 env).1.method = HttpMethod.DELETE ∧
    (svc.deleteMedication 42 env).1.body = none ∧
    (svc.deleteMedication 42 env).2 = Except.ok (Json.obj []) ∧
    Json.obj [] ≠ Json.null := by
  have hcore : ∀ t : Nat, d < t →
      (match withRetry (timedCall env t) API_CONFIG_RETRY_ATTEMPTS 0 with
        | Except.error e => Except.error (normalizeError e)
        | Except.ok r => responseToResult r) = Except.ok (Json.obj []) := by
    intro t ht
    have h1 : timedCall env t 0 = Except.ok r := by
      simp [timedCall, withTimeout, h0, ht]
    have hresp : withRetry (timedCall env t) API_CONFIG_RETRY_ATTEMPTS 0 = Except.ok r := by
      simp only [withRetry_default_eq, h1]
    rw [hresp]
    simp [responseToResult, hok, hct]
  refine ⟨?_, rfl, rfl, rfl, ?_, fun h => Json.noConfusion h⟩
  · exact hcore _ hd
  · exact hcore API_CONFIG_TIMEOUT hdq

/-- C4 witness: deleteMedication(42) against a 204 empty response
resolves to the empty object. -/
theorem C4_witness :
    ((apiService true PlatformOS.ios).deleteMedication 42 env204).1.url
      = "http://localhost:5050/api/Medication/42" ∧
    ((apiService true PlatformOS.ios).deleteMedication 42 env204).2
      = Except.ok (Json.obj []) := by
  have h := C4_theorem (apiService true PlatformOS.ios)
    ("/Medication/" ++ toString (42 : Int))
    (RequestOptions.mk (some HttpMethod.DELETE) none none none) env204 0 resp204
    rfl (by decide) (by decide) rfl rfl
  exact ⟨h.2.1, h.2.2.2.2.1⟩

/-- C5 (corrected).  A non-success response is surfaced as the error
"HTTP status: body" (status line replacing an empty body) — but only
when that text does not contain the substring "timeout"; otherwise the
timeout rewrite of the catch block destroys the status and body
(see C10).  The 404 "Symptom not found" scenario is an instance of the
surviving case. -/
theorem C5_theorem (svc : ApiService) (endpoint : String) (options : RequestOptions)
    (env : Nat → FetchAttempt) (d : Nat) (r : HttpResponse)
    (h0 : env 0 = FetchAttempt.mk d (Except.ok r))
    (hd : d < options.timeout.getD API_CONFIG_TIMEOUT)
    (hok : r.ok = false)
    (hnt : jsIncludes (httpErrorMessage r) "timeout" = false) :
    (svc.request endpoint options env).2
      = Except.error (JsError.mk false (httpErrorMessage r)) ∧
    httpErrorMessage r
      = "HTTP " ++ toString r.status ++ ": "
          ++ (if r.bodyText = "" then r.statusText else r.bodyText) := by
  have h1 : timedCall env (options.timeout.getD API_CONFIG_TIMEOUT) 0 = Except.ok r := by
    simp [timedCall, withTimeout, h0, hd]
  have hresp : withRetry (timedCall env (options.timeout.getD API_CONFIG_TIMEOUT))
      API_CONFIG_RETRY_ATTEMPTS 0 = Except.ok r := by
    simp only [withRetry_default_eq, h1]
  constructor
  · simp only [ApiService.request, hresp]
    simp [responseToResult, hok, normalizeError, hnt]
  · rfl

/-- C5 (counterexample to the claim as stated): getSymptom(999) answered
504 with body "Gateway timeout" produces an error that contains neither
the status code nor the server body — the substring rewrite replaced it. -/
theorem C5_counterexample :
    ((apiService true PlatformOS.ios).getSymptom 999 envC3).2
      = Except.error (JsError.mk false "Request timed out. Please try again.") ∧
    jsIncludes "Request timed out. Please try again." "504" = false ∧
    jsIncludes "Request timed out. Please try again." "Gateway timeout" = false := by
  exact ⟨rfl, rfl, rfl⟩

/-- A 404 response carrying the body "Symptom not found". -/
def resp404 : HttpResponse :=
  HttpResponse.mk 404 "Not Found" (some "text/plain") "Symptom not found" Json.null

def env404 : Nat → FetchAttempt := fun _ => FetchAttempt.mk 0 (Except.ok resp404)

/-- C5 witness: the 404 scenario; the thrown message carries the numeric
status and the server body verbatim. -/
theorem C5_witness :
    ((apiService true PlatformOS.ios).getSymptom 999 env404).2
      = Except.error (JsError.mk false "HTTP 404: Symptom not found") ∧
    jsIncludes "HTTP 404: Symptom not found" "404" = true ∧
    jsIncludes "HTTP 404: Symptom not found" "Symptom not found" = true := by
  have h := C5_theorem (apiService true PlatformOS.ios)
    ("/symptoms/" ++ toString (999 : Int))
    (RequestOptions.mk (some HttpMethod.GET) none none none) env404 0 resp404
    rfl (by decide) rfl rfl
  exact ⟨h.1, rfl, rfl⟩

/-- The runtime value of the Migraine PartialSymptom literal from the
scenario, fields in the literal's insertion order. -/
def migrainePayload : Json :=
  Json.obj [("name", Json.str "Migraine"), ("isActive", Json.bool true),
    ("stages", Json.arr [Json.obj [("name", Json.str "Severe"),
      ("medication", Json.arr [Json.obj [("name", Json.str "Ibuprofen"),
        ("quantityMg", Json.num 400), ("intervalHours", Json.num 8),
        ("totalDays", Json.num 5)]])]])]

/-- The Symptom the server hands back for that create, id assigned. -/
def createdSymptomJson : Json :=
  Json.obj [("id", Json.num 7), ("name", Json.str "Migraine"),
    ("isActive", Json.bool true), ("stages", Json.arr [])]

def respC6 : HttpResponse :=
  HttpResponse.mk 201 "Created" (some "application/json; charset=utf-8") ""
    createdSymptomJson

def envC6 : Nat → FetchAttempt := fun _ => FetchAttempt.mk 0 (Except.ok respC6)

/-- A present body is serialized verbatim for every non-GET method. -/
theorem sentBodyOf_some (j : Json) (m : HttpMethod) (hm : m ≠ HttpMethod.GET) :
    sentBodyOf (some j) m = some (Json.stringify j) := by
  cases m with
  | GET => exact absurd rfl hm
  | POST => rfl
  | PUT => rfl
  | DELETE => rfl
  | PATCH => rfl

/-- C6 (confirmed).  For EVERY create/update call the HTTP body sent is
exactly JSON.stringify of the caller's payload, nothing added or
dropped: generically, any request whose options carry a body and a
non-GET method serializes that body verbatim; and each typed
create/update method — createSymptom, updateSymptom, createMedication,
updateMedication, createStage, updateStage, createIntake, updateIntake —
issues its documented method and path with exactly that body and, on a
successful JSON response, resolves to the server's parsed body. -/
theorem C6_theorem (svc : ApiService) (payload : Json) (id : Int)
    (env : Nat → FetchAttempt) (d : Nat) (r : HttpResponse)
    (h0 : env 0 = FetchAttempt.mk d (Except.ok r))
    (hd : d < API_CONFIG_TIMEOUT)
    (hok : r.ok = true)
    (hct : contentTypeIsJson r.contentType = true) :
    (∀ (endpoint : String) (opts : RequestOptions),
      opts.body = some payload → opts.method.getD HttpMethod.GET ≠ HttpMethod.GET →
      (svc.request endpoint opts env).1.body = some (Json.stringify payload)) ∧
    ((svc.createSymptom payload env).1.url = svc.baseURL ++ "/symptoms" ∧
     (svc.createSymptom payload env).1.method = HttpMethod.POST ∧
     (svc.createSymptom payload env).1.body = some (Json.stringify payload) ∧
     (svc.createSymptom payload env).2 = Except.ok r.jsonBody) ∧
    ((svc.updateSymptom id payload env).1.url
        = svc.baseURL ++ ("/symptoms/" ++ toString id) ∧
     (svc.updateSymptom id payload env).1.method = HttpMethod.PUT ∧
     (svc.updateSymptom id payload env).1.body = some (Json.stringify payload) ∧
     (svc.updateSymptom id payload env).2 = Except.ok r.jsonBody) ∧
    ((svc.createMedication payload env).1.url = svc.baseURL ++ "/Medication" ∧
     (svc.createMedication payload env).1.method = HttpMethod.POST ∧
     (svc.createMedication payload env).1.body = some (Json.stringify payload) ∧
     (svc.createMedication payload env).2 = Except.ok r.jsonBody) ∧
    ((svc.updateMedication id payload env).1.url
        = svc.baseURL ++ ("/Medication/" ++ toString id) ∧
     (svc.updateMedication id payload env).1.method = HttpMethod.PUT ∧
     (svc.updateMedication id payload env).1.body = some (Json.stringify payload) ∧
     (svc.updateMedication id payload env).2 = Except.ok r.jsonBody) ∧
    ((svc.createStage payload env).1.url = svc.baseURL ++ "/stages" ∧
     (svc.createStage payload env).1.method = HttpMethod.POST ∧
     (svc.createStage payload env).1.body = some (Json.stringify payload) ∧
     (svc.createStage payload env).2 = Except.ok r.jsonBody) ∧
    ((svc.updateStage id payload env).1.url
        = svc.baseURL ++ ("/stages/" ++ toString id) ∧
     (svc.updateStage id payload env).1.method = HttpMethod.PUT ∧
     (svc.updateStage id payload env).1.body = some (Json.stringify payload) ∧
     (svc.updateStage id payload env).2 = Except.ok r.jsonBody) ∧
    ((svc.createIntake payload env).1.url = svc.baseURL ++ "/intakes" ∧
     (svc.createIntake payload env).1.method = HttpMethod.POST ∧
     (svc.createIntake payload env).1.body = some (Json.stringify payload) ∧
     (svc.createIntake payload env).2 = Except.ok r.jsonBody) ∧
    ((svc.updateIntake id payload env).1.url
        = svc.baseURL ++ ("/intakes/" ++ toString id) ∧
     (svc.updateIntake id payload env).1.method = HttpMethod.PUT ∧
     (svc.updateIntake id payload env).1.body = some (Json.stringify payload) ∧
     (svc.updateIntake id payload env).2 = Except.ok r.jsonBody) := by
  have h1 : timedCall env API_CONFIG_TIMEOUT 0 = Except.ok r := by
    simp [timedCall, withTimeout, h0, hd]
  have hresp : withRetry (timedCall env API_CONFIG_TIMEOUT)
      API_CONFIG_RETRY_ATTEMPTS 0 = Except.ok r := by
    simp only [withRetry_default_eq, h1]
  have hcore : (match withRetry (timedCall env API_CONFIG_TIMEOUT)
      API_CONFIG_RETRY_ATTEMPTS 0 with
    | Except.error e => Except.error (normalizeError e)
    | Except.ok r0 => responseToResult r0) = Except.ok r.jsonBody := by
    rw [hresp]
    simp [responseToResult, hok, hct]
  refine ⟨?_, ⟨rfl, rfl, rfl, hcore⟩, ⟨rfl, rfl, rfl, hcore⟩, ⟨rfl, rfl, rfl, hcore⟩,
    ⟨rfl, rfl, rfl, hcore⟩, ⟨rfl, rfl, rfl, hcore⟩, ⟨rfl, rfl, rfl, hcore⟩,
    ⟨rfl, rfl, rfl, hcore⟩, ⟨rfl, rfl, rfl, hcore⟩⟩
  intro endpoint opts hb hm
  show sentBodyOf opts.body (opts.method.getD HttpMethod.GET) = some (Json.stringify payload)
  rw [hb]
  exact sentBodyOf_some payload _ hm

/-- C6 witness: the Migraine scenario; the body string is the exact
field-for-field serialization of the literal, and the call resolves to
the server's Symptom with its assigned id. -/
theorem C6_witness :
    ((apiService true PlatformOS.ios).createSymptom migrainePayload envC6).1.body
      = some (Json.stringify migrainePayload) ∧
    Json.stringify migrainePayload
      = "\x7b\"name\":\"Migraine\",\"isActive\":true,\"stages\":[\x7b\"name\":\"Severe\",\"medication\":[\x7b\"name\":\"Ibuprofen\",\"quantityMg\":400,\"intervalHours\":8,\"totalDays\":5\x7d]\x7d]\x7d" ∧
    ((apiService true PlatformOS.ios).createSymptom migrainePayload envC6).2
      = Except.ok createdSymptomJson := by
  have h := C6_theorem (apiService true PlatformOS.ios) migrainePayload 0 envC6 0 respC6
    rfl (by decide) rfl rfl
  exact ⟨h.2.1.2.2.1, by rfl, h.2.1.2.2.2⟩

/-- C7 (confirmed).  healthCheck is a total Boolean: true exactly when
the underlying read of /symptoms resolves, false exactly when it throws,
and by its Bool return type it can propagate no error. -/
theorem C7_theorem (svc : ApiService) (env : Nat → FetchAttempt) :
    (svc.healthCheck env = true ↔ ∃ v, (svc.get "/symptoms" env).2 = Except.ok v) ∧
    (svc.healthCheck env = false ↔ ∃ e, (svc.get "/symptoms" env).2 = Except.error e) := by
  unfold ApiService.healthCheck
  cases h : (ApiService.get svc "/symptoms" env).2 with
  | ok v => simp [h]
  | error e => simp [h]

/-- C8 (confirmed).  A first attempt lost to the timer or to a transport
rejection, followed by a second fetch invocation that resolves within a
fresh window with a successful JSON response, makes the whole call
resolve with the second attempt's result. -/
theorem C8_theorem (svc : ApiService) (endpoint : String) (options : RequestOptions)
    (env : Nat → FetchAttempt) (e : JsError) (d : Nat) (r : HttpResponse)
    (h0 : timedCall env (options.timeout.getD API_CONFIG_TIMEOUT) 0 = Except.error e)
    (h1 : env 1 = FetchAttempt.mk d (Except.ok r))
    (hd : d < options.timeout.getD API_CONFIG_TIMEOUT)
    (hok : r.ok = true)
    (hct : contentTypeIsJson r.contentType = true) :
    (svc.request endpoint options env).2 = Except.ok r.jsonBody := by
  have h1' : timedCall env (options.timeout.getD API_CONFIG_TIMEOUT) 1 = Except.ok r := by
    simp [timedCall, withTimeout, h1, hd]
  have hresp : withRetry (timedCall env (options.timeout.getD API_CONFIG_TIMEOUT))
      API_CONFIG_RETRY_ATTEMPTS 0 = Except.ok r := by
    simp only [withRetry_default_eq, h0, Nat.zero_add, h1']
  simp only [ApiService.request, hresp]
  simp [responseToResult, hok, hct]

/-- First fetch sleeps past the window; the re-invocation answers fast. -/
def envC8 : Nat → FetchAttempt
  | 0 => FetchAttempt.mk 99999 (Except.ok okJson)
  | _ + 1 => FetchAttempt.mk 0 (Except.ok okJson)

/-- C8 witness: a timed-out first attempt followed by a healthy second
attempt resolves with the second attempt's JSON. -/
theorem C8_witness :
    ((apiService true PlatformOS.ios).getSymptoms envC8).2
      = Except.ok (Json.obj [("ok", Json.bool true)]) := by
  exact C8_theorem (apiService true PlatformOS.ios) "/symptoms"
    (RequestOptions.mk (some HttpMethod.GET) none none none) envC8
    (JsError.mk false "Request timeout") 0 okJson rfl rfl (by decide) rfl rfl

/-- C9 (corrected).  The catch block does not restore the stored prior
value: it rebuilds the captured pre-toggle list setting the toggled
symptom's isActive to the NEGATION of the requested value.  That equals
the prior value exactly when the prior value differed from the requested
one (the normal toggle), in which case the whole list is restored;
symptoms with other ids are never modified, on any path. -/
theorem C9_theorem (symptoms : List Symptom) (symptomId : Int) (value : Bool)
    (apiFails : Bool) :
    ((∀ s ∈ symptoms, s.id = symptomId → s.isActive = !value) →
      handleToggleActive symptoms symptomId value true = symptoms) ∧
    List.Forall₂ (fun s t => s.id ≠ symptomId → t = s) symptoms
      (handleToggleActive symptoms symptomId value apiFails) := by
  constructor
  · intro h
    unfold handleToggleActive
    cases hf : symptoms.find? (fun s => s.id == symptomId) with
    | none => rfl
    | some s0 =>
      show symptoms.map (fun s => if s.id == symptomId then s.setActive (!value) else s)
          = symptoms
      have hmap : ∀ s ∈ symptoms,
          (if s.id == symptomId then s.setActive (!value) else s) = id s := by
        intro s hs
        by_cases hid : s.id = symptomId
        · have hbeq : (s.id == symptomId) = true := beq_iff_eq.mpr hid
          rw [if_pos hbeq]
          show Symptom.mk s.id s.name (!value) s.stages = s
          rw [← h s hs hid]
        · simp [hid]
      rw [List.map_congr_left hmap, List.map_id]
  · unfold handleToggleActive
    cases hf : symptoms.find? (fun s => s.id == symptomId) with
    | none => exact List.forall₂_same.mpr (fun s _ _ => rfl)
    | some s0 =>
      have hall : ∀ b : Bool,
          List.Forall₂ (fun s t => s.id ≠ symptomId → t = s) symptoms
            (symptoms.map (fun s => if s.id == symptomId then s.setActive b else s)) := by
        intro b
        refine List.forall₂_map_right_iff.mpr (List.forall₂_same.mpr ?_)
        intro s _ hid
        simp [hid]
      cases apiFails with
      | false => exact hall value
      | true => exact hall (!value)

/-- C9 (counterexample to the claim as stated): toggling a symptom that
is ALREADY active to active (prior value equals requested value) and
failing the call does not roll back to the prior value true — the catch
block writes the negation, false. -/
theorem C9_counterexample :
    handleToggleActive [Symptom.mk 1 "Headache" true []] 1 true true
      = [Symptom.mk 1 "Headache" false []] ∧
    handleToggleActive [Symptom.mk 1 "Headache" true []] 1 true true
      ≠ [Symptom.mk 1 "Headache" true []] := by
  exact ⟨rfl, by decide⟩

/-- C9 witness: in the normal toggle (prior value false, requested value
true) a failed call restores the list exactly, other symptoms included. -/
theorem C9_witness :
    handleToggleActive
        [Symptom.mk 1 "Headache" false [], Symptom.mk 2 "Nausea" true []] 1 true true
      = [Symptom.mk 1 "Headache" false [], Symptom.mk 2 "Nausea" true []] :=
  (C9_theorem [Symptom.mk 1 "Headache" false [], Symptom.mk 2 "Nausea" true []]
    1 true true).1 (by decide)
